import Mathlib

/-!
Verification of the vallox-mqtt gateway's event-reconciliation and
command-debounce core, as a shallow embedding of `main.go` (current version)
and of the historical handler (`handleEvent` / `verifyOldValues`).

Conventions of the embedding:
* timestamps and durations are natural numbers in milliseconds
  (`time.Since t` at instant `now` is the truncated difference `now - t`,
  which agrees with the Go comparisons for monotone clocks);
* the register cache `map[byte]cacheEntry` is an association list with
  `List.lookup` for map lookup and key-replacing insertion for assignment;
* bus and MQTT side effects (publish, announce, query, write) are recorded
  in explicit effect lists instead of being performed;
* Go `byte` conversions are `% 256` on `Int` (Euclidean, as in Go's
  two's-complement truncation).
-/

/-- Register codes of the external `vallox-rs485` driver, a collaborator
outside this repository.  Modelled from the spec: only their distinctness is
relevant to the core logic (fan speed plus the four temperatures). -/
def FanSpeed : Nat := 0x29

/-- Modelled from the spec: temperature register code (driver constant). -/
def TempIncomingInside : Nat := 0x35

/-- Modelled from the spec: temperature register code (driver constant). -/
def TempIncomingOutside : Nat := 0x32

/-- Modelled from the spec: temperature register code (driver constant). -/
def TempOutgoingInside : Nat := 0x34

/-- Modelled from the spec: temperature register code (driver constant). -/
def TempOutgoingOutside : Nat := 0x33

/-- `vallox.Event`: register id, decoded (scaled) value, raw bus value. -/
structure Event where
  register : Nat
  value : Int
  rawValue : Nat
deriving DecidableEq, Repr

/-- `cacheEntry` of `main.go`: acceptance timestamp plus the cached event. -/
structure CacheEntry where
  time : Nat
  value : Event
deriving DecidableEq, Repr

/-- `map[byte]cacheEntry` as an association list; lookup is `List.lookup`. -/
abbrev Cache := List (Nat × CacheEntry)

/-- Go map assignment `cache[r] = v`: replace any entry for `r`. -/
def cacheStore (c : Cache) (r : Nat) (v : CacheEntry) : Cache :=
  (r, v) :: c.filter (fun p => p.1 ≠ r)

/-- The mutable globals of `main.go` that the dispatcher owns:
the register cache and the speed-debounce variables. -/
structure Globals where
  cache : Cache
  updateSpeed : Nat
  updateSpeedRequested : Nat
  currentSpeed : Nat
  currentSpeedUpdated : Nat
deriving DecidableEq, Repr

/-- Side effects a handler emits: Home Assistant raw-register announcements
(`announceRawData` calls), MQTT value publishes (`publishValue` calls) and
bus register queries (`device.Query` calls). -/
structure Effects where
  announces : List Nat
  publishes : List Event
  queries : List Nat
deriving DecidableEq, Repr

/-- The empty effect record. -/
def Effects.none : Effects := ⟨[], [], []⟩

/-- Go `byte(v)` on a signed integer value: the low 8 bits. -/
def byteOf (v : Int) : Nat := (v % 256).toNat

/-- Shared tail of `handleValloxEvent`: store the event in the cache with the
current time, update the confirmed-speed belief when the register is the fan
speed, and publish the value. -/
def acceptEvent (e : Event) (g : Globals) (now : Nat) (anns : List Nat) :
    Globals × Effects :=
  let cached : CacheEntry := ⟨now, e⟩
  let cache := cacheStore g.cache e.register cached
  if e.register = FanSpeed then
    ({ g with cache := cache, currentSpeed := byteOf e.value,
              currentSpeedUpdated := cached.time }, ⟨anns, [e], []⟩)
  else
    ({ g with cache := cache }, ⟨anns, [e], []⟩)

/-- `handleValloxEvent` of `main.go`: drop foreign events; announce and accept
first-seen registers; silently drop duplicates fresher than one minute;
otherwise accept (store, track fan speed, publish). -/
def handleValloxEvent (forMe : Bool) (e : Event) (g : Globals) (now : Nat) :
    Globals × Effects :=
  if ¬ forMe then (g, Effects.none)
  else
    match List.lookup e.register g.cache with
    | Option.none => acceptEvent e g now [e.register]
    | some val =>
      if val.value.rawValue = e.rawValue ∧ now - val.time < 60000 then
        (g, Effects.none)
      else acceptEvent e g now []

namespace V1

/-- `verifyOldValues` of the historical gateway version: query the fan-speed
register when its cache entry is older than fifteen minutes or missing. -/
def verifyOldValues (cache : Cache) (now : Nat) : List Nat :=
  match List.lookup FanSpeed cache with
  | Option.none => [FanSpeed]
  | some cached => if cached.time < now - 900000 then [FanSpeed] else []

/-- `handleEvent` of the historical gateway version: announce and accept
first-seen registers; on a duplicate seen within fifteen minutes run
`verifyOldValues` and stop; otherwise accept (store and publish). -/
def handleEvent (forMe : Bool) (e : Event) (cache : Cache) (now : Nat) :
    Cache × Effects :=
  if ¬ forMe then (cache, Effects.none)
  else
    match List.lookup e.register cache with
    | Option.none => (cacheStore cache e.register ⟨now, e⟩, ⟨[e.register], [e], []⟩)
    | some val =>
      if val.value.rawValue = e.rawValue ∧ now - 900000 < val.time then
        (cache, ⟨[], [], verifyOldValues cache now⟩)
      else (cacheStore cache e.register ⟨now, e⟩, ⟨[], [e], []⟩)

end V1

example :
    (handleValloxEvent true ⟨5, 3, 3⟩ ⟨[], 0, 0, 0, 0⟩ 1000).2 =
      ⟨[5], [⟨5, 3, 3⟩], []⟩ := by decide

example :
    (handleValloxEvent true ⟨5, 3, 3⟩ ⟨[(5, ⟨900, ⟨5, 3, 3⟩⟩)], 0, 0, 0, 0⟩ 1000).2 =
      Effects.none := by decide

example :
    (V1.handleEvent true ⟨5, 3, 3⟩ [(5, ⟨900, ⟨5, 3, 3⟩⟩)] 1000).2 =
      ⟨[], [], [FanSpeed]⟩ := by decide

/-- `hasSameRecentSpeed` of `main.go`: the request equals the confirmed speed
and the confirmation is younger than ten seconds. -/
def hasSameRecentSpeed (g : Globals) (request : Nat) (now : Nat) : Bool :=
  (g.currentSpeed == request) && decide (now - g.currentSpeedUpdated < 10000)

/-- The `speedUpdateRequest` branch of the dispatcher loop in `main`:
drop a request the device already satisfies recently; otherwise record the
pending speed and request time and schedule a write attempt (the returned
flag says whether an attempt token was put on `speedUpdateSend`). -/
def speedRequest (g : Globals) (request : Nat) (now : Nat) : Globals × Bool :=
  if hasSameRecentSpeed g request now then (g, false)
  else
    ({ g with updateSpeed := request, updateSpeedRequested := now }, true)

/-- Externally visible actions of the debouncer, in program order:
bus speed write, sleep, bus register query, and rescheduling of a write
attempt at a later instant (the retry goroutine's delayed channel send). -/
inductive BusAction
  | write (v : Nat)
  | sleep (ms : Nat)
  | query (r : Nat)
  | schedule (t : Nat)
deriving DecidableEq, Repr

/-- `sendSpeed` of `main.go`: within five seconds of the latest request just
re-arm the attempt one second later; past the cool-down, write unless the
confirmed speed already equals the request with a confirmation younger than
ten seconds; a write optimistically confirms the requested value at `now`,
sleeps 20 ms and queries the fan-speed register. -/
def sendSpeed (g : Globals) (now : Nat) : Globals × List BusAction :=
  if decide (now - g.updateSpeedRequested < 5000) then
    (g, [BusAction.schedule (now + 1000)])
  else if (g.currentSpeed != g.updateSpeed) ||
      decide (10000 < now - g.currentSpeedUpdated) then
    ({ g with currentSpeed := g.updateSpeed, currentSpeedUpdated := now },
     [BusAction.write g.updateSpeed, BusAction.sleep 20, BusAction.query FanSpeed])
  else (g, [])

/-- Events the dispatcher can pick next while debouncing: an external speed
command (`speedUpdateRequest`) or a write-attempt token (`speedUpdateSend`). -/
inductive QEvent
  | request (v : Nat)
  | attempt
deriving DecidableEq, Repr

/-- Insert a timed event into a queue sorted by firing time; FIFO among
events with the same time. -/
def insertQ (t : Nat) (ev : QEvent) : List (Nat × QEvent) → List (Nat × QEvent)
  | [] => [(t, ev)]
  | (t2, e2) :: rest =>
    if t2 ≤ t then (t2, e2) :: insertQ t ev rest
    else (t, ev) :: (t2, e2) :: rest

/-- Run the dispatcher over pending debouncer events in time order, with no
interleaving bus events; returns the bus speed writes issued, in order.
Fuel bounds the number of processed events. -/
def runQueue : Nat → Globals → List (Nat × QEvent) → List Nat
  | 0, _, _ => []
  | _ + 1, _, [] => []
  | fuel + 1, g, (t, ev) :: rest =>
    match ev with
    | QEvent.request v =>
      let r := speedRequest g v t
      runQueue fuel r.1 (if r.2 then insertQ t QEvent.attempt rest else rest)
    | QEvent.attempt =>
      let r := sendSpeed g t
      let writes := r.2.filterMap (fun a =>
        match a with | BusAction.write v => some v | _ => Option.none)
      let rest2 := r.2.foldl (fun q a =>
        match a with | BusAction.schedule t2 => insertQ t2 QEvent.attempt q | _ => q) rest
      writes ++ runQueue fuel r.1 rest2

example :
    runQueue 30 ⟨[], 0, 0, 9, 0⟩
      [(100000, QEvent.request 1), (100100, QEvent.request 2),
       (100200, QEvent.request 3)] = [3] := by decide

/-- The well-known register set of `topicMapOld` (the registers with MQTT
state topics): fan speed and the four temperatures. -/
def topicMapRegs : List Nat :=
  [FanSpeed, TempIncomingInside, TempIncomingOutside,
   TempOutgoingInside, TempOutgoingOutside]

/-- `queryValues` of `main.go`: on the scheduled refresh, query every
register of the topic map that is absent from the cache or whose cached
timestamp is older than fifteen minutes. -/
def queryValues (cache : Cache) (now : Nat) : List Nat :=
  topicMapRegs.filter (fun register =>
    match List.lookup register cache with
    | Option.none => true
    | some cached => decide (cached.time < now - 900000))

/-- Modelled from the spec: the set of registers the system cares about per
section 4.4 - the fixed well-known set, "or an extended set if raw
passthrough is enabled", the extended set being the full register address
space (section 4.1). -/
def caredRegistersSpec (enableRaw : Bool) : List Nat :=
  if enableRaw then List.range 256 else topicMapRegs

/-- Entity identifiers handed to `publishDiscovery` (Go `uid` strings;
distinct strings become distinct constructors). -/
inductive Uid
  | fanSpeed | fanSelect
  | tempIncomingOutside | tempIncomingInside
  | tempOutgoingInside | tempOutgoingOutside
  | raw (register : Nat)
deriving DecidableEq, Repr

/-- MQTT state/command topics of `main.go` (Go topic strings; distinct
strings become distinct constructors, `raw/%x` is injective in the
register). -/
inductive MqttTopic
  | fanSpeed | fanSet
  | tempIncomingInside | tempIncomingOutside
  | tempOutgoingInside | tempOutgoingOutside
  | raw (register : Nat)
deriving DecidableEq, Repr

/-- Discovery entity type (`sensor` or `select` in the discovery topic). -/
inductive EType
  | sensor | select
deriving DecidableEq, Repr

/-- One Home Assistant discovery descriptor publish. -/
structure DiscoveryMsg where
  etype : EType
  uid : Uid
  stateTopic : MqttTopic
  cmdTopic : Option MqttTopic
deriving DecidableEq, Repr

/-- `publishDiscovery` of `main.go`: skip when the state topic is already in
the announced set, otherwise record it and publish the descriptor. -/
def publishDiscovery (ann : List MqttTopic) (etype : EType) (uid : Uid)
    (stateTopic : MqttTopic) (cmdTopic : Option MqttTopic) :
    List MqttTopic × List DiscoveryMsg :=
  if stateTopic ∈ ann then (ann, [])
  else (stateTopic :: ann, [⟨etype, uid, stateTopic, cmdTopic⟩])

/-- `publishSensor` of `main.go`. -/
def publishSensor (ann : List MqttTopic) (uid : Uid) (stateTopic : MqttTopic) :
    List MqttTopic × List DiscoveryMsg :=
  publishDiscovery ann EType.sensor uid stateTopic Option.none

/-- `publishSelect` of `main.go`. -/
def publishSelect (ann : List MqttTopic) (uid : Uid) (stateTopic : MqttTopic)
    (cmdTopic : MqttTopic) : List MqttTopic × List DiscoveryMsg :=
  publishDiscovery ann EType.select uid stateTopic (some cmdTopic)

/-- `announceRawData` of `main.go`: nothing unless raw passthrough is
enabled; otherwise announce the per-register raw sensor. -/
def announceRawData (enableRaw : Bool) (ann : List MqttTopic) (register : Nat) :
    List MqttTopic × List DiscoveryMsg :=
  if ¬ enableRaw then (ann, [])
  else publishSensor ann (Uid.raw register) (MqttTopic.raw register)

/-- `announceMeToMqttDiscovery` of `main.go`: reset the announced set, then
publish the six well-known entities in program order, then the raw sensor of
every cached register.  Returns the final announced set and the descriptors
published, in order. -/
def announceMeToMqttDiscovery (enableRaw : Bool) (cache : Cache) :
    List MqttTopic × List DiscoveryMsg :=
  let p1 := publishSensor [] Uid.fanSpeed MqttTopic.fanSpeed
  let p2 := publishSelect p1.1 Uid.fanSelect MqttTopic.fanSpeed MqttTopic.fanSet
  let p3 := publishSensor p2.1 Uid.tempIncomingOutside MqttTopic.tempIncomingOutside
  let p4 := publishSensor p3.1 Uid.tempIncomingInside MqttTopic.tempIncomingInside
  let p5 := publishSensor p4.1 Uid.tempOutgoingInside MqttTopic.tempOutgoingInside
  let p6 := publishSensor p5.1 Uid.tempOutgoingOutside MqttTopic.tempOutgoingOutside
  cache.foldl
    (fun st p =>
      let r := announceRawData enableRaw st.1 p.1
      (r.1, st.2 ++ r.2))
    (p6.1, p1.2 ++ p2.2 ++ p3.2 ++ p4.2 ++ p5.2 ++ p6.2)

/-- Go `strconv`'s `lower(c)`: fold ASCII letters to lower case. -/
def goLower (c : Nat) : Nat := c ||| 32

/-- Digit value of a character in the given base, as in Go's `ParseUint`
digit switch (decimal digits, then letters case-insensitively). -/
def digitVal (base : Nat) (c : Char) : Option Nat :=
  if '0'.toNat ≤ c.toNat ∧ c.toNat ≤ '9'.toNat then
    let d := c.toNat - '0'.toNat
    if d < base then some d else Option.none
  else if 'a'.toNat ≤ goLower c.toNat ∧ goLower c.toNat ≤ 'z'.toNat then
    let d := goLower c.toNat - 'a'.toNat + 10
    if d < base then some d else Option.none
  else Option.none

/-- Base detection of Go's `ParseUint` with `base == 0`: a `0b`/`0o`/`0x`
prefix (needing at least one following character) selects the base, a bare
leading `0` selects octal, anything else decimal. -/
def splitBase : List Char → Nat × List Char
  | '0' :: c :: d :: r =>
    if goLower c.toNat = 'b'.toNat then (2, d :: r)
    else if goLower c.toNat = 'o'.toNat then (8, d :: r)
    else if goLower c.toNat = 'x'.toNat then (16, d :: r)
    else (8, c :: d :: r)
  | '0' :: rest => (8, rest)
  | s => (10, s)

/-- The digit-accumulation loop of Go's `ParseUint` with `base == 0`:
underscores are skipped (resolved later by `underscoreOK`), any other
non-digit is a syntax error.  Returns the accumulated value and whether an
underscore was seen; the caller applies the range check. -/
def accumDigits (base : Nat) : List Char → Nat → Bool → Option (Nat × Bool)
  | [], n, sawU => some (n, sawU)
  | c :: r, n, sawU =>
    if c = '_' then accumDigits base r n true
    else
      match digitVal base c with
      | some d => accumDigits base r (n * base + d) sawU
      | Option.none => Option.none

/-- The scan of Go's `underscoreOK`: `saw` is `^` at the start, `0` after a
digit (or the base prefix), `_` after an underscore, `!` after anything
else; underscores must be surrounded by digits. -/
def underscoreScan : List Char → Char → Bool → Bool
  | [], saw, _ => saw != '_'
  | c :: r, saw, hex =>
    if ('0'.toNat ≤ c.toNat ∧ c.toNat ≤ '9'.toNat) ∨
        (hex ∧ 'a'.toNat ≤ goLower c.toNat ∧ goLower c.toNat ≤ 'f'.toNat) then
      underscoreScan r '0' hex
    else if c = '_' then
      if saw ≠ '0' then false else underscoreScan r '_' hex
    else if saw = '_' then false
    else underscoreScan r '!' hex

/-- Go `strconv.underscoreOK`: skip an optional sign and base prefix, then
require every underscore to separate digits. -/
def underscoreOK (s : List Char) : Bool :=
  let s1 := match s with
    | c :: r => if c = '-' ∨ c = '+' then r else s
    | [] => s
  match s1 with
  | '0' :: c :: r =>
    if goLower c.toNat = 'b'.toNat ∨ goLower c.toNat = 'o'.toNat ∨
        goLower c.toNat = 'x'.toNat then
      underscoreScan r '0' (decide (goLower c.toNat = 'x'.toNat))
    else underscoreScan s1 '^' false
  | _ => underscoreScan s1 '^' false

/-- Go `strconv.ParseUint(s, 0, 8)` on the sign-stripped input: empty input
and invalid digits are syntax errors, misplaced underscores are syntax
errors, values above 255 are range errors; all errors collapse to `none`. -/
def parseUintBase0Bit8 (s : List Char) : Option Nat :=
  match s with
  | [] => Option.none
  | _ =>
    let bs := splitBase s
    match accumDigits bs.1 bs.2 0 false with
    | Option.none => Option.none
    | some nu =>
      if nu.2 && !underscoreOK s then Option.none
      else if 255 < nu.1 then Option.none
      else some nu.1

/-- The sign handling at the top of Go's `ParseInt`: strip a leading `+` or
`-`, remembering whether the value is negated. -/
def signSplit : List Char → Bool × List Char
  | '+' :: r => (false, r)
  | '-' :: r => (true, r)
  | s => (false, s)

/-- Go `strconv.ParseInt(s, 0, 8)`: optional sign, then `ParseUint` in the
detected base, then the signed 8-bit range check (`un >= 128` rejected when
positive, `un > 128` rejected when negative). -/
def parseIntBase0Bit8 (s : List Char) : Option Int :=
  match s with
  | [] => Option.none
  | _ =>
    let sr : Bool × List Char := signSplit s
    match parseUintBase0Bit8 sr.2 with
    | Option.none => Option.none
    | some un =>
      if !sr.1 && decide (128 ≤ un) then Option.none
      else if sr.1 && decide (128 < un) then Option.none
      else if sr.1 then some (-(un : Int)) else some (un : Int)

/-- `changeSpeedMessage` of `main.go`: parse the payload with
`strconv.ParseInt(body, 0, 8)`; on error log and drop (`none`), otherwise
enqueue `byte(spd)` as the speed-update request. -/
def changeSpeedMessage (body : String) : Option Nat :=
  match parseIntBase0Bit8 body.data with
  | Option.none => Option.none
  | some spd => some (spd % 256).toNat

example : changeSpeedMessage "0x5" = some 5 := by decide
example : changeSpeedMessage "-1" = some 255 := by decide
example : changeSpeedMessage "128" = Option.none := by decide
example : changeSpeedMessage "127" = some 127 := by decide
example : changeSpeedMessage "-128" = some 128 := by decide
example : changeSpeedMessage "-129" = Option.none := by decide
example : changeSpeedMessage "abc" = Option.none := by decide
example : changeSpeedMessage "" = Option.none := by decide
example : changeSpeedMessage "0" = some 0 := by decide
example : changeSpeedMessage "010" = some 8 := by decide
example : changeSpeedMessage "0b101" = some 5 := by decide
example : changeSpeedMessage "1_2" = some 12 := by decide
example : changeSpeedMessage "_12" = Option.none := by decide
example : changeSpeedMessage "1__2" = Option.none := by decide
example : changeSpeedMessage "0x" = Option.none := by decide

theorem runQueue_req (fuel : Nat) (g : Globals) (t v : Nat)
    (rest : List (Nat × QEvent)) :
    runQueue (fuel + 1) g ((t, QEvent.request v) :: rest) =
      runQueue fuel (speedRequest g v t).1
        (if (speedRequest g v t).2 then insertQ t QEvent.attempt rest
         else rest) := rfl

theorem runQueue_att (fuel : Nat) (g : Globals) (t : Nat)
    (rest : List (Nat × QEvent)) :
    runQueue (fuel + 1) g ((t, QEvent.attempt) :: rest) =
      (sendSpeed g t).2.filterMap (fun a =>
        match a with | BusAction.write v => some v | _ => Option.none) ++
      runQueue fuel (sendSpeed g t).1
        ((sendSpeed g t).2.foldl (fun q a =>
          match a with
          | BusAction.schedule t2 => insertQ t2 QEvent.attempt q
          | _ => q) rest) := rfl

theorem runQueue_nil (fuel : Nat) (g : Globals) : runQueue fuel g [] = [] := by
  cases fuel <;> rfl

theorem runQueue_att_sched (fuel : Nat) (g : Globals) (t : Nat)
    (rest : List (Nat × QEvent)) (h : t - g.updateSpeedRequested < 5000) :
    runQueue (fuel + 1) g ((t, QEvent.attempt) :: rest) =
      runQueue fuel g (insertQ (t + 1000) QEvent.attempt rest) := by
  rw [runQueue_att]
  simp only [sendSpeed, if_pos (decide_eq_true h)]
  simp only [List.filterMap, List.foldl, List.nil_append]

theorem runQueue_att_write (fuel : Nat) (g : Globals) (t : Nat)
    (rest : List (Nat × QEvent)) (h1 : ¬ (t - g.updateSpeedRequested < 5000))
    (h2 : g.currentSpeed ≠ g.updateSpeed ∨ 10000 < t - g.currentSpeedUpdated) :
    runQueue (fuel + 1) g ((t, QEvent.attempt) :: rest) =
      g.updateSpeed ::
        runQueue fuel
          { g with currentSpeed := g.updateSpeed, currentSpeedUpdated := t }
          rest := by
  rw [runQueue_att]
  rw [sendSpeed.eq_def]
  rw [if_neg (fun hc => h1 (of_decide_eq_true hc))]
  rw [if_pos (show (_ || _) = true by
    rcases h2 with h | h
    · exact Bool.or_eq_true_iff.mpr (Or.inl (by simpa [bne_iff_ne] using h))
    · exact Bool.or_eq_true_iff.mpr (Or.inr (decide_eq_true h)))]
  simp only [List.filterMap, List.foldl, List.singleton_append]

theorem runQueue_att_sup (fuel : Nat) (g : Globals) (t : Nat)
    (rest : List (Nat × QEvent)) (h1 : ¬ (t - g.updateSpeedRequested < 5000))
    (h2 : g.currentSpeed = g.updateSpeed)
    (h3 : ¬ (10000 < t - g.currentSpeedUpdated)) :
    runQueue (fuel + 1) g ((t, QEvent.attempt) :: rest) =
      runQueue fuel g rest := by
  rw [runQueue_att]
  rw [sendSpeed.eq_def]
  rw [if_neg (fun hc => h1 (of_decide_eq_true hc))]
  rw [if_neg (show ¬ ((g.currentSpeed != g.updateSpeed ||
      decide (10000 < t - g.currentSpeedUpdated)) = true) from fun hc => by
    rcases Bool.or_eq_true_iff.mp hc with hb | hd
    · exact absurd h2 (bne_iff_ne.mp hb)
    · exact h3 (of_decide_eq_true hd))]
  simp only [List.filterMap, List.foldl, List.nil_append]

theorem runQueue_req_acc (fuel : Nat) (g : Globals) (t v : Nat)
    (rest : List (Nat × QEvent))
    (h : ¬ (g.currentSpeed = v ∧ t - g.currentSpeedUpdated < 10000)) :
    runQueue (fuel + 1) g ((t, QEvent.request v) :: rest) =
      runQueue fuel { g with updateSpeed := v, updateSpeedRequested := t }
        (insertQ t QEvent.attempt rest) := by
  have hb : hasSameRecentSpeed g v t = false := by
    simp only [hasSameRecentSpeed, Bool.and_eq_false_iff, beq_eq_false_iff_ne,
      decide_eq_false_iff_not]
    by_cases hc : g.currentSpeed = v
    · exact Or.inr fun hlt => h ⟨hc, hlt⟩
    · exact Or.inl hc
  have hsr : speedRequest g v t =
      ({ g with updateSpeed := v, updateSpeedRequested := t }, true) := by
    simp [speedRequest, hb]
  rw [runQueue_req, hsr]
  simp
/-- C4: three speed commands arriving in rapid succession (within the
cool-down window, with no interleaving bus events or other commands) cause
exactly one bus write, carrying the last value: every attempt younger than
the cool-down only re-arms itself, the first attempt past the cool-down
writes the pending (latest) value, and all later queued attempts are
suppressed by the confirmed-speed check. -/
theorem debounce_coalesces_to_last (v1 v2 v3 c0 : Nat) :
    runQueue 30 ⟨[], 0, 0, c0, 0⟩
      [(100000, QEvent.request v1), (100100, QEvent.request v2),
       (100200, QEvent.request v3)] = [v3] := by
  rw [show (30:Nat) = 29 + 1 from rfl,
    runQueue_req_acc 29 ⟨[], 0, 0, c0, 0⟩ 100000 v1 [(100100, QEvent.request v2), (100200, QEvent.request v3)] (by simp)]
  norm_num [insertQ]
  rw [show (29:Nat) = 28 + 1 from rfl,
    runQueue_att_sched 28 ⟨[], v1, 100000, c0, 0⟩ 100000 [(100100, QEvent.request v2), (100200, QEvent.request v3)] (by norm_num)]
  norm_num [insertQ]
  rw [show (28:Nat) = 27 + 1 from rfl,
    runQueue_req_acc 27 ⟨[], v1, 100000, c0, 0⟩ 100100 v2 [(100200, QEvent.request v3), (101000, QEvent.attempt)] (by simp)]
  norm_num [insertQ]
  rw [show (27:Nat) = 26 + 1 from rfl,
    runQueue_att_sched 26 ⟨[], v2, 100100, c0, 0⟩ 100100 [(100200, QEvent.request v3), (101000, QEvent.attempt)] (by norm_num)]
  norm_num [insertQ]
  rw [show (26:Nat) = 25 + 1 from rfl,
    runQueue_req_acc 25 ⟨[], v2, 100100, c0, 0⟩ 100200 v3 [(101000, QEvent.attempt), (101100, QEvent.attempt)] (by simp)]
  norm_num [insertQ]
  rw [show (25:Nat) = 24 + 1 from rfl,
    runQueue_att_sched 24 ⟨[], v3, 100200, c0, 0⟩ 100200 [(101000, QEvent.attempt), (101100, QEvent.attempt)] (by norm_num)]
  norm_num [insertQ]
  rw [show (24:Nat) = 23 + 1 from rfl,
    runQueue_att_sched 23 ⟨[], v3, 100200, c0, 0⟩ 101000 [(101100, QEvent.attempt), (101200, QEvent.attempt)] (by norm_num)]
  norm_num [insertQ]
  rw [show (23:Nat) = 22 + 1 from rfl,
    runQueue_att_sched 22 ⟨[], v3, 100200, c0, 0⟩ 101100 [(101200, QEvent.attempt), (102000, QEvent.attempt)] (by norm_num)]
  norm_num [insertQ]
  rw [show (22:Nat) = 21 + 1 from rfl,
    runQueue_att_sched 21 ⟨[], v3, 100200, c0, 0⟩ 101200 [(102000, QEvent.attempt), (102100, QEvent.attempt)] (by norm_num)]
  norm_num [insertQ]
  rw [show (21:Nat) = 20 + 1 from rfl,
    runQueue_att_sched 20 ⟨[], v3, 100200, c0, 0⟩ 102000 [(102100, QEvent.attempt), (102200, QEvent.attempt)] (by norm_num)]
  norm_num [insertQ]
  rw [show (20:Nat) = 19 + 1 from rfl,
    runQueue_att_sched 19 ⟨[], v3, 100200, c0, 0⟩ 102100 [(102200, QEvent.attempt), (103000, QEvent.attempt)] (by norm_num)]
  norm_num [insertQ]
  rw [show (19:Nat) = 18 + 1 from rfl,
    runQueue_att_sched 18 ⟨[], v3, 100200, c0, 0⟩ 102200 [(103000, QEvent.attempt), (103100, QEvent.attempt)] (by norm_num)]
  norm_num [insertQ]
  rw [show (18:Nat) = 17 + 1 from rfl,
    runQueue_att_sched 17 ⟨[], v3, 100200, c0, 0⟩ 103000 [(103100, QEvent.attempt), (103200, QEvent.attempt)] (by norm_num)]
  norm_num [insertQ]
  rw [show (17:Nat) = 16 + 1 from rfl,
    runQueue_att_sched 16 ⟨[], v3, 100200, c0, 0⟩ 103100 [(103200, QEvent.attempt), (104000, QEvent.attempt)] (by norm_num)]
  norm_num [insertQ]
  rw [show (16:Nat) = 15 + 1 from rfl,
    runQueue_att_sched 15 ⟨[], v3, 100200, c0, 0⟩ 103200 [(104000, QEvent.attempt), (104100, QEvent.attempt)] (by norm_num)]
  norm_num [insertQ]
  rw [show (15:Nat) = 14 + 1 from rfl,
    runQueue_att_sched 14 ⟨[], v3, 100200, c0, 0⟩ 104000 [(104100, QEvent.attempt), (104200, QEvent.attempt)] (by norm_num)]
  norm_num [insertQ]
  rw [show (14:Nat) = 13 + 1 from rfl,
    runQueue_att_sched 13 ⟨[], v3, 100200, c0, 0⟩ 104100 [(104200, QEvent.attempt), (105000, QEvent.attempt)] (by norm_num)]
  norm_num [insertQ]
  rw [show (13:Nat) = 12 + 1 from rfl,
    runQueue_att_sched 12 ⟨[], v3, 100200, c0, 0⟩ 104200 [(105000, QEvent.attempt), (105100, QEvent.attempt)] (by norm_num)]
  norm_num [insertQ]
  rw [show (12:Nat) = 11 + 1 from rfl,
    runQueue_att_sched 11 ⟨[], v3, 100200, c0, 0⟩ 105000 [(105100, QEvent.attempt), (105200, QEvent.attempt)] (by norm_num)]
  norm_num [insertQ]
  rw [show (11:Nat) = 10 + 1 from rfl,
    runQueue_att_sched 10 ⟨[], v3, 100200, c0, 0⟩ 105100 [(105200, QEvent.attempt), (106000, QEvent.attempt)] (by norm_num)]
  norm_num [insertQ]
  rw [show (10:Nat) = 9 + 1 from rfl,
    runQueue_att_write 9 ⟨[], v3, 100200, c0, 0⟩ 105200 [(106000, QEvent.attempt), (106100, QEvent.attempt)] (by norm_num) (Or.inr (by norm_num))]
  norm_num
  rw [show (9:Nat) = 8 + 1 from rfl,
    runQueue_att_sup 8 ⟨[], v3, 100200, v3, 105200⟩ 106000 [(106100, QEvent.attempt)] (by norm_num) rfl (by norm_num)]
  rw [show (8:Nat) = 7 + 1 from rfl,
    runQueue_att_sup 7 ⟨[], v3, 100200, v3, 105200⟩ 106100 [] (by norm_num) rfl (by norm_num)]
  rw [runQueue_nil]

theorem lookup_cacheStore_self (c : Cache) (r : Nat) (v : CacheEntry) :
    List.lookup r (cacheStore c r v) = some v := by
  simp [cacheStore, List.lookup]

theorem handleValloxEvent_fresh_noop (g : Globals) (e : Event) (now : Nat)
    (val : CacheEntry) (hl : List.lookup e.register g.cache = some val)
    (hr : val.value.rawValue = e.rawValue) (hf : now - val.time < 60000) :
    handleValloxEvent true e g now = (g, Effects.none) := by
  simp [handleValloxEvent, hl, hr, hf]

theorem handleValloxEvent_accepts (g : Globals) (e : Event) (now : Nat)
    (h : ∀ val, List.lookup e.register g.cache = some val →
      ¬ (val.value.rawValue = e.rawValue ∧ now - val.time < 60000)) :
    (handleValloxEvent true e g now).1.cache =
        cacheStore g.cache e.register ⟨now, e⟩ ∧
      (handleValloxEvent true e g now).2.publishes = [e] ∧
      (handleValloxEvent true e g now).2.queries = [] := by
  cases hl : List.lookup e.register g.cache with
  | none =>
      have hu : handleValloxEvent true e g now = acceptEvent e g now [e.register] := by
        simp [handleValloxEvent, hl]
      rw [hu]
      by_cases hreg : e.register = FanSpeed <;> simp [acceptEvent, hreg]
  | some val =>
      have hu : handleValloxEvent true e g now = acceptEvent e g now [] := by
        simp [handleValloxEvent, hl, h val hl]
      rw [hu]
      by_cases hreg : e.register = FanSpeed <;> simp [acceptEvent, hreg]

/-- C2: a duplicate event within the one-minute freshness window is a pure
no-op (no publish, no cache write, no announce, no confirmed-speed change),
and delivering the same (register, rawValue) event twice within the window
yields exactly one publish, the second delivery being a pure no-op. -/
theorem duplicate_fresh_pure_noop :
    (∀ (g : Globals) (e : Event) (now : Nat) (val : CacheEntry),
      List.lookup e.register g.cache = some val →
      val.value.rawValue = e.rawValue → now - val.time < 60000 →
      handleValloxEvent true e g now = (g, Effects.none)) ∧
    (∀ (g : Globals) (e : Event) (n1 n2 : Nat),
      (∀ val, List.lookup e.register g.cache = some val →
        ¬ (val.value.rawValue = e.rawValue ∧ n1 - val.time < 60000)) →
      n2 - n1 < 60000 →
      (handleValloxEvent true e g n1).2.publishes = [e] ∧
      handleValloxEvent true e (handleValloxEvent true e g n1).1 n2 =
        ((handleValloxEvent true e g n1).1, Effects.none)) := by
  constructor
  · exact fun g e now val hl hr hf => handleValloxEvent_fresh_noop g e now val hl hr hf
  · intro g e n1 n2 hacc hfr
    obtain ⟨hc, hp, -⟩ := handleValloxEvent_accepts g e n1 hacc
    refine ⟨hp, handleValloxEvent_fresh_noop _ e n2 ⟨n1, e⟩ ?_ rfl hfr⟩
    rw [hc]
    exact lookup_cacheStore_self _ _ _

theorem duplicate_fresh_pure_noop_witness :
    handleValloxEvent true ⟨5, 3, 3⟩ ⟨[(5, ⟨900, ⟨5, 3, 3⟩⟩)], 0, 0, 0, 0⟩ 1000 =
      (⟨[(5, ⟨900, ⟨5, 3, 3⟩⟩)], 0, 0, 0, 0⟩, Effects.none) :=
  duplicate_fresh_pure_noop.1 ⟨[(5, ⟨900, ⟨5, 3, 3⟩⟩)], 0, 0, 0, 0⟩ ⟨5, 3, 3⟩ 1000
    ⟨900, ⟨5, 3, 3⟩⟩ rfl rfl (by decide)

/-- C3: the first event for a register (no cache entry) is accepted: the
register is cached with the event and the current timestamp, the event is
published, and exactly one announce signal fires for it. -/
theorem first_seen_accept_announce (g : Globals) (e : Event) (now : Nat)
    (h : List.lookup e.register g.cache = Option.none) :
    List.lookup e.register (handleValloxEvent true e g now).1.cache =
        some ⟨now, e⟩ ∧
      (handleValloxEvent true e g now).2.publishes = [e] ∧
      (handleValloxEvent true e g now).2.announces = [e.register] := by
  have hu : handleValloxEvent true e g now = acceptEvent e g now [e.register] := by
    simp [handleValloxEvent, h]
  rw [hu]
  by_cases hreg : e.register = FanSpeed <;>
    simp [acceptEvent, hreg, lookup_cacheStore_self]

theorem first_seen_accept_announce_witness :
    List.lookup 5 (handleValloxEvent true ⟨5, 3, 3⟩ ⟨[], 0, 0, 2, 0⟩ 1000).1.cache =
        some ⟨1000, ⟨5, 3, 3⟩⟩ ∧
      (handleValloxEvent true ⟨5, 3, 3⟩ ⟨[], 0, 0, 2, 0⟩ 1000).2.publishes =
        [⟨5, 3, 3⟩] ∧
      (handleValloxEvent true ⟨5, 3, 3⟩ ⟨[], 0, 0, 2, 0⟩ 1000).2.announces = [5] :=
  first_seen_accept_announce ⟨[], 0, 0, 2, 0⟩ ⟨5, 3, 3⟩ 1000 rfl

/-- C1 counterexample: on a duplicate-stale event (same raw value, cache
entry older than the freshness threshold) the current handler and the
historical handler both republish the unchanged value and update the cache,
and neither issues any bus query, contrary to the claim. -/
theorem duplicate_stale_counterexample :
    ((handleValloxEvent true ⟨5, 7, 7⟩
        ⟨[(5, ⟨0, ⟨5, 7, 7⟩⟩)], 0, 0, 0, 0⟩ 100000).2.publishes = [⟨5, 7, 7⟩] ∧
      (handleValloxEvent true ⟨5, 7, 7⟩
        ⟨[(5, ⟨0, ⟨5, 7, 7⟩⟩)], 0, 0, 0, 0⟩ 100000).2.queries = [] ∧
      List.lookup 5 (handleValloxEvent true ⟨5, 7, 7⟩
        ⟨[(5, ⟨0, ⟨5, 7, 7⟩⟩)], 0, 0, 0, 0⟩ 100000).1.cache =
          some ⟨100000, ⟨5, 7, 7⟩⟩) ∧
    ((V1.handleEvent true ⟨5, 7, 7⟩ [(5, ⟨0, ⟨5, 7, 7⟩⟩)] 1000000).2.publishes =
        [⟨5, 7, 7⟩] ∧
      (V1.handleEvent true ⟨5, 7, 7⟩ [(5, ⟨0, ⟨5, 7, 7⟩⟩)] 1000000).2.queries =
        []) := by
  decide

/-- C1 amended: a duplicate event whose cache entry is at least as old as the
freshness threshold is accepted, not re-queried: both the current handler
(one-minute threshold) and the historical handler (fifteen-minute threshold)
republish the unchanged value, refresh the cache entry's timestamp, and issue
no bus query; the historical fan-speed re-query fires on the duplicate-fresh
branch instead. -/
theorem duplicate_stale_accepted :
    (∀ (g : Globals) (e : Event) (now : Nat) (val : CacheEntry),
      List.lookup e.register g.cache = some val →
      val.value.rawValue = e.rawValue → 60000 ≤ now - val.time →
      (handleValloxEvent true e g now).2.publishes = [e] ∧
      (handleValloxEvent true e g now).2.queries = [] ∧
      List.lookup e.register (handleValloxEvent true e g now).1.cache =
        some ⟨now, e⟩) ∧
    (∀ (cache : Cache) (e : Event) (now : Nat) (val : CacheEntry),
      List.lookup e.register cache = some val →
      val.value.rawValue = e.rawValue → val.time ≤ now - 900000 →
      (V1.handleEvent true e cache now).2.publishes = [e] ∧
      (V1.handleEvent true e cache now).2.queries = [] ∧
      List.lookup e.register (V1.handleEvent true e cache now).1 =
        some ⟨now, e⟩) := by
  constructor
  · intro g e now val hl hr hs
    obtain ⟨hc, hp, hq⟩ := handleValloxEvent_accepts g e now (fun v hv => by
      rw [hl] at hv
      cases hv
      exact fun hcnd => absurd hcnd.2 (by omega))
    exact ⟨hp, hq, by rw [hc]; exact lookup_cacheStore_self _ _ _⟩
  · intro cache e now val hl hr hs
    have hcond : ¬ (val.value.rawValue = e.rawValue ∧ now - 900000 < val.time) :=
      fun hc => absurd hc.2 (by omega)
    have hu : V1.handleEvent true e cache now =
        (cacheStore cache e.register ⟨now, e⟩, ⟨[], [e], []⟩) := by
      simp [V1.handleEvent, hl, hcond]
    rw [hu]
    exact ⟨rfl, rfl, lookup_cacheStore_self _ _ _⟩

theorem duplicate_stale_accepted_witness :
    (handleValloxEvent true ⟨6, 7, 7⟩
        ⟨[(6, ⟨0, ⟨6, 7, 7⟩⟩)], 0, 0, 0, 0⟩ 70000).2.publishes = [⟨6, 7, 7⟩] ∧
      (handleValloxEvent true ⟨6, 7, 7⟩
        ⟨[(6, ⟨0, ⟨6, 7, 7⟩⟩)], 0, 0, 0, 0⟩ 70000).2.queries = [] ∧
      List.lookup 6 (handleValloxEvent true ⟨6, 7, 7⟩
        ⟨[(6, ⟨0, ⟨6, 7, 7⟩⟩)], 0, 0, 0, 0⟩ 70000).1.cache =
          some ⟨70000, ⟨6, 7, 7⟩⟩ :=
  duplicate_stale_accepted.1 ⟨[(6, ⟨0, ⟨6, 7, 7⟩⟩)], 0, 0, 0, 0⟩ ⟨6, 7, 7⟩ 70000
    ⟨0, ⟨6, 7, 7⟩⟩ rfl rfl (by decide)

/-- C5: an external speed command equal to the confirmed speed with a
confirmation younger than ten seconds is dropped without any state change or
scheduled write attempt; otherwise the pending speed and request time are set
and a write attempt is scheduled. -/
theorem speed_request_grace (g : Globals) (v now : Nat) :
    (g.currentSpeed = v ∧ now - g.currentSpeedUpdated < 10000 →
      speedRequest g v now = (g, false)) ∧
    (¬ (g.currentSpeed = v ∧ now - g.currentSpeedUpdated < 10000) →
      speedRequest g v now =
        ({ g with updateSpeed := v, updateSpeedRequested := now }, true)) := by
  constructor
  · rintro ⟨h1, h2⟩
    simp [speedRequest, hasSameRecentSpeed, h1, h2]
  · intro h
    have hb : hasSameRecentSpeed g v now = false := by
      simp only [hasSameRecentSpeed, Bool.and_eq_false_iff, beq_eq_false_iff_ne,
        decide_eq_false_iff_not]
      by_cases hc : g.currentSpeed = v
      · exact Or.inr fun hlt => h ⟨hc, hlt⟩
      · exact Or.inl hc
    simp [speedRequest, hb]

theorem speed_request_grace_witness :
    speedRequest ⟨[], 0, 0, 4, 100⟩ 4 500 = (⟨[], 0, 0, 4, 100⟩, false) :=
  (speed_request_grace ⟨[], 0, 0, 4, 100⟩ 4 500).1 ⟨rfl, by decide⟩

/-- C6: a write attempt past the cool-down that is not suppressed performs,
in order: the bus write of the requested speed, the optimistic update of the
confirmed-speed belief to (requested value, now), the 20 ms settle sleep, and
the fan-speed register query. -/
theorem send_speed_write_sequence (g : Globals) (now : Nat)
    (h1 : ¬ (now - g.updateSpeedRequested < 5000))
    (h2 : g.currentSpeed ≠ g.updateSpeed ∨ 10000 < now - g.currentSpeedUpdated) :
    sendSpeed g now =
      ({ g with currentSpeed := g.updateSpeed, currentSpeedUpdated := now },
       [BusAction.write g.updateSpeed, BusAction.sleep 20,
        BusAction.query FanSpeed]) := by
  rw [sendSpeed.eq_def, if_neg (fun hc => h1 (of_decide_eq_true hc)),
    if_pos (show (_ || _) = true by
      rcases h2 with h | h
      · exact Bool.or_eq_true_iff.mpr (Or.inl (by simpa [bne_iff_ne] using h))
      · exact Bool.or_eq_true_iff.mpr (Or.inr (decide_eq_true h)))]

theorem send_speed_write_sequence_witness :
    sendSpeed ⟨[], 3, 0, 2, 0⟩ 20000 =
      (⟨[], 3, 0, 3, 20000⟩,
       [BusAction.write 3, BusAction.sleep 20, BusAction.query FanSpeed]) :=
  send_speed_write_sequence ⟨[], 3, 0, 2, 0⟩ 20000 (by decide)
    (Or.inr (by decide))

/-- C7 (bug exhibit): a full announcement pass with raw passthrough enabled
and register 7 cached starts from a cleared announced set, yet publishes
descriptors only for the fan-speed sensor, the four temperature sensors and
the cached raw register; the fan-select descriptor is never published,
because `publishDiscovery` deduplicates on the state topic and the fan-speed
sensor has already claimed the shared fan-speed state topic. -/
theorem announce_pass_skips_fan_select :
    ((announceMeToMqttDiscovery true [(7, ⟨0, ⟨7, 1, 1⟩⟩)]).2.map
        DiscoveryMsg.uid =
      [Uid.fanSpeed, Uid.tempIncomingOutside, Uid.tempIncomingInside,
       Uid.tempOutgoingInside, Uid.tempOutgoingOutside, Uid.raw 7]) ∧
      ¬ Uid.fanSelect ∈
        (announceMeToMqttDiscovery true [(7, ⟨0, ⟨7, 1, 1⟩⟩)]).2.map
          DiscoveryMsg.uid := by
  decide

/-- C8 counterexample: with raw passthrough enabled and an empty cache,
register 0 belongs to the spec's extended cared-about set and is absent from
the cache, yet the scheduled refresh does not query it: the query loop
iterates only the fixed topic map, unaffected by the raw flag. -/
theorem refresh_ignores_raw_extension :
    0 ∈ caredRegistersSpec true ∧
      List.lookup 0 ([] : Cache) = Option.none ∧
      ¬ 0 ∈ queryValues [] 1000000 := by
  decide

/-- C8 amended: each scheduled refresh queries exactly those registers of the
fixed well-known topic-map set (fan speed and the four temperatures) that are
absent from the cache or whose cached timestamp is older than fifteen
minutes; raw passthrough does not extend the queried set. -/
theorem refresh_queries_exactly_absent_or_stale (cache : Cache) (now r : Nat) :
    r ∈ queryValues cache now ↔
      r ∈ topicMapRegs ∧
        (List.lookup r cache = Option.none ∨
          ∃ c, List.lookup r cache = some c ∧ c.time < now - 900000) := by
  simp only [queryValues, List.mem_filter]
  refine and_congr_right fun _ => ?_
  cases hl : List.lookup r cache <;> simp [hl]

/-- C9: an inbound speed-command payload that `strconv.ParseInt(body, 0, 8)`
rejects is dropped: no speed-update request is produced. -/
theorem malformed_speed_command_dropped (body : String)
    (h : parseIntBase0Bit8 body.data = Option.none) :
    changeSpeedMessage body = Option.none := by
  simp [changeSpeedMessage, h]

theorem malformed_speed_command_dropped_witness :
    changeSpeedMessage "abc" = Option.none :=
  malformed_speed_command_dropped "abc" (by decide)

theorem parseInt_range_aux (s : List Char) (n : Int)
    (h : parseIntBase0Bit8 s = some n) : -128 ≤ n ∧ n ≤ 127 := by
  cases s with
  | nil => simp [parseIntBase0Bit8] at h
  | cons c r =>
    simp only [parseIntBase0Bit8] at h
    rcases hu : parseUintBase0Bit8 (signSplit (c :: r)).2 with _ | un
    · simp only [hu] at h
      cases h
    · simp only [hu] at h
      cases hneg : (signSplit (c :: r)).1 with
      | false =>
        simp only [hneg, Bool.not_false, Bool.true_and, Bool.false_and,
          Bool.false_eq_true, if_false] at h
        by_cases h1 : (128:Nat) ≤ un
        · rw [if_pos (decide_eq_true h1)] at h
          cases h
        · rw [if_neg (fun hc => h1 (of_decide_eq_true hc))] at h
          simp only [Option.some.injEq] at h
          subst h
          omega
      | true =>
        simp only [hneg, Bool.not_true, Bool.false_and, Bool.true_and,
          Bool.false_eq_true, if_false, eq_self_iff_true, if_true] at h
        by_cases h1 : (128:Nat) < un
        · rw [if_pos (decide_eq_true h1)] at h
          cases h
        · rw [if_neg (fun hc => h1 (of_decide_eq_true hc))] at h
          simp only [Option.some.injEq] at h
          subst h
          omega

/-- C10: the inbound speed-command parser honors base prefixes ("0x5" parses
as 5), applies no 1-8 speed-domain check (0 and 100 are forwarded verbatim),
converts negative values to a byte modulo 256 ("-1" is forwarded as 255),
and rejects values outside the signed 8-bit range ("128", "-129"); every
accepted parse lies in -128..127. -/
theorem speed_parser_semantics :
    changeSpeedMessage "0x5" = some 5 ∧
    changeSpeedMessage "-1" = some 255 ∧
    changeSpeedMessage "0" = some 0 ∧
    changeSpeedMessage "100" = some 100 ∧
    changeSpeedMessage "128" = Option.none ∧
    changeSpeedMessage "-129" = Option.none ∧
    (∀ (s : List Char) (n : Int),
      parseIntBase0Bit8 s = some n → -128 ≤ n ∧ n ≤ 127) :=
  ⟨by decide, by decide, by decide, by decide, by decide, by decide,
   fun s n h => parseInt_range_aux s n h⟩

theorem speed_parser_semantics_witness : -128 ≤ (5 : Int) ∧ (5 : Int) ≤ 127 :=
  speed_parser_semantics.2.2.2.2.2.2 ['5'] 5 (by decide)
